import Mathlib

/-
Verification development for the Kid Draughts API (pdn.js + index.js):
a shallow embedding of the PDN formatter (`generatePDN`) and the store
operations behind the HTTP handlers (RecordEvent, UpsertGameHeader,
FinalizeGame, ExportPDN), together with theorems settling the
specification's claims about them.

Embedding conventions:
* JavaScript values that may be absent (undefined/null) are `Option`
  values; the JS truthiness tests the code performs are modelled per
  type (a string is falsy when absent or empty, a number when absent or
  zero, an object is falsy only when absent).
* Wall-clock reads (`Date.now()`, the UTC date used for the Date tag)
  are passed in as explicit parameters (`now`, `today`).
* Each MongoDB collection is a list of records; `updateOne` with
  `upsert: true` is modelled at each call site.  MongoDB statically
  rejects an update document in which one operator's path is a proper
  prefix of (or equal to) another operator's path (server error 40,
  "Updating the path 'totals.games' would create a conflict at
  'totals'").  The player update in the events handler builds exactly
  such a document whenever a counter increment is selected, so the
  conflict check is modelled explicitly for that call site; the two
  games-collection update documents use pairwise non-conflicting paths
  (proved below), so their model applies the operators directly.
-/

/-! ## Move list entries

One entry of a `moves` array is either a null/undefined slot or an
object whose `notation` field may itself be absent.  Lean reserves the
word used by the source for that field, so the field is named `notat`
here.  -/

structure MoveObj where
  notat : Option String
deriving DecidableEq, Repr

/-- A slot of the `moves` array: `none` models a null/undefined entry. -/
abbrev Ply := Option MoveObj

/-- JS truthiness of the expression `p?.notation`: the string when the
entry is an object carrying a nonempty string, `none` otherwise. -/
def notatOf (p : Ply) : Option String :=
  match p with
  | none => none
  | some m =>
    match m.notat with
    | none => none
    | some s => if s = "" then none else some s

@[simp] theorem notatOf_none : notatOf none = none := rfl

/-! ## The PDN formatter (pdn.js) -/

/-- One side of a game as sent by the client (`white` / `black`). -/
structure Side where
  userId : Option Int
  display : Option String
  isAI : Option Bool
  aiLevel : Option Int
deriving DecidableEq, Repr

/-- The fields of the argument object that `generatePDN` reads
(`game.white`, `game.black`, `game.result`, `game.variant`,
`game.moves`); other properties of the argument are ignored by the
function and are omitted here. -/
structure PdnInput where
  white : Option Side
  black : Option Side
  result : Option String
  variant : Option String
  moves : Option (List Ply)
deriving DecidableEq, Repr

/-- The `tags` object, in the fixed key order Event, Site, Date, Round,
White, Black, Result, GameType. -/
structure Tags where
  event : String
  site : String
  date : String
  round : String
  white : String
  black : String
  result : String
  gameType : String
deriving DecidableEq, Repr

/-- The return value of `generatePDN`. -/
structure PdnOut where
  tags : Tags
  text : String
deriving DecidableEq, Repr

/-- JS `o || d` for strings: the default replaces an absent or empty
string. -/
def jsOr (o : Option String) (d : String) : String :=
  match o with
  | none => d
  | some s => if s = "" then d else s

/-- pdn.js lines 3-10. -/
def gameTypeForVariant (variant : String) : String :=
  if variant = "International" then "20"
  else if variant = "Brazilian" then "26"
  else if variant = "Turkish" then "30"
  else "20"

/-- The movetext loop of pdn.js lines 33-42: `for (i = 0; i < len; i += 2)`
with `w = moves[i]`, `b = moves[i+1]`, breaking when `w?.notation` is
falsy, appending the black half only when `b?.notation` is truthy, and
incrementing the move number after each emitted pair.  Out-of-range
reads (`moves[i+1]` past the end) yield undefined, i.e. `none`. -/
def movetextAux (moves : List Ply) (i moveNo : Nat) : String :=
  if h : i < moves.length then
    match notatOf ((moves[i]?).getD none) with
    | none => ""
    | some wn =>
      let bp :=
        match notatOf ((moves[i + 1]?).getD none) with
        | none => ""
        | some bn => " " ++ bn
      toString moveNo ++ ". " ++ wn ++ bp ++ " " ++ movetextAux moves (i + 2) (moveNo + 1)
  else ""
termination_by moves.length - i
decreasing_by simp_wf; omega

/-- pdn.js lines 29-44: the loop starting at index 0 and move number 1,
followed by the Result tag value as the final movetext token. -/
def movetext (moves : List Ply) (resTag : String) : String :=
  movetextAux moves 0 1 ++ resTag

/-- pdn.js line 47: one rendered tag line. -/
def tagLine (k v : String) : String :=
  "[" ++ k ++ " \"" ++ v ++ "\"]"

/-- pdn.js lines 46-48: the tag block, one line per tag in insertion
order. -/
def tagText (t : Tags) : String :=
  String.intercalate "\n"
    [tagLine "Event" t.event, tagLine "Site" t.site, tagLine "Date" t.date,
     tagLine "Round" t.round, tagLine "White" t.white, tagLine "Black" t.black,
     tagLine "Result" t.result, tagLine "GameType" t.gameType]

/-- pdn.js lines 12-54.  `today` is the `YYYY.MM.DD` UTC date the
function reads from the wall clock. -/
def generatePDN (game : PdnInput) (today : String) : PdnOut :=
  let tags : Tags :=
    { event := "Kid Draughts"
      site := "Roblox"
      date := today
      round := "?"
      white := jsOr (game.white.bind Side.display) "White"
      black := jsOr (game.black.bind Side.display) "Black"
      result := jsOr game.result "*"
      gameType := gameTypeForVariant (jsOr game.variant "International") }
  let mt := movetext (game.moves.getD []) tags.result
  { tags := tags, text := (tagText tags ++ "\n\n" ++ mt).trim }

/-! ## Pair-structured views of the movetext loop

`movetextPairs` restates the loop as the spec's §4.1 words it once the
stopping rule is read as applying to the *white* ply of a pair: plies
are consumed two at a time starting at the given move number, a pair
whose white ply lacks a notation stops emission, and a black ply
lacking a notation only omits that pair's black token.  It is proved
equal to the index-based loop below and is the amended form of claim
C1.

`movetextClaimC1` instead formalises claim C1 exactly as stated: the
first ply lacking a notation — black plies included — terminates the
movetext, so nothing is emitted after a pair whose black slot lacks a
notation. -/

def movetextPairs (ms : List Ply) (moveNo : Nat) : String :=
  match ms with
  | [] => ""
  | [w] =>
    match notatOf w with
    | none => ""
    | some wn => toString moveNo ++ ". " ++ wn ++ " "
  | w :: b :: rest =>
    match notatOf w with
    | none => ""
    | some wn =>
      let bp :=
        match notatOf b with
        | none => ""
        | some bn => " " ++ bn
      toString moveNo ++ ". " ++ wn ++ bp ++ " " ++ movetextPairs rest (moveNo + 1)

def movetextClaimC1 (ms : List Ply) (moveNo : Nat) : String :=
  match ms with
  | [] => ""
  | [w] =>
    match notatOf w with
    | none => ""
    | some wn => toString moveNo ++ ". " ++ wn ++ " "
  | w :: b :: rest =>
    match notatOf w with
    | none => ""
    | some wn =>
      match notatOf b with
      | none => toString moveNo ++ ". " ++ wn ++ " "
      | some bn => toString moveNo ++ ". " ++ wn ++ " " ++ bn ++ " " ++ movetextClaimC1 rest (moveNo + 1)

/-- The index-based loop equals the pair-consuming view, from any start
index. -/
theorem movetextAux_eq_pairs (moves : List Ply) :
    ∀ k i moveNo, moves.length - i ≤ k →
      movetextAux moves i moveNo = movetextPairs (moves.drop i) moveNo := by
  intro k
  induction k with
  | zero =>
    intro i moveNo h
    have hle : moves.length ≤ i := by omega
    rw [movetextAux]
    rw [dif_neg (by omega)]
    rw [List.drop_eq_nil_iff.mpr hle]
    rfl
  | succ k ih =>
    intro i moveNo h
    by_cases hi : i < moves.length
    · cases hd : moves.drop i with
      | nil =>
        exact absurd (List.drop_eq_nil_iff.mp hd) (by omega)
      | cons w rest =>
        have hwi : moves[i]? = some w := by
          rw [← List.head?_drop, hd]; rfl
        have hrest : moves.drop (i + 1) = rest := by
          have h2 := List.drop_drop 1 i moves
          rw [hd] at h2
          exact h2.symm
        have hbi : moves[i + 1]? = rest.head? := by
          rw [← List.head?_drop, hrest]
        have hrec : movetextAux moves (i + 2) (moveNo + 1) =
            movetextPairs (moves.drop (i + 2)) (moveNo + 1) := by
          apply ih
          omega
        have hdrop2 : moves.drop (i + 2) = rest.drop 1 := by
          have h2 := List.drop_drop 1 (i + 1) moves
          rw [hrest] at h2
          exact h2.symm
        rw [movetextAux, dif_pos hi, hwi]
        simp only [Option.getD_some]
        cases rest with
        | nil =>
          have hb : moves[i + 1]? = none := hbi
          rw [hb]
          simp only [Option.getD_none]
          cases hnw : notatOf w with
          | none => simp [movetextPairs, hnw]
          | some wn =>
            rw [hrec, hdrop2]
            simp [movetextPairs, hnw]
        | cons b rest2 =>
          have hb : moves[i + 1]? = some b := hbi
          rw [hb]
          simp only [Option.getD_some]
          cases hnw : notatOf w with
          | none => simp [movetextPairs, hnw]
          | some wn =>
            rw [hrec, hdrop2]
            simp only [List.drop_succ_cons, List.drop_zero]
            cases hnb : notatOf b with
            | none => simp [movetextPairs, hnw, hnb]
            | some bn => simp [movetextPairs, hnw, hnb]
    · rw [movetextAux]
      rw [dif_neg hi]
      rw [List.drop_eq_nil_iff.mpr (by omega)]
      rfl

/-- The full movetext equals the pair view started at move number 1,
with the result token appended. -/
theorem movetext_eq_pairs (ms : List Ply) (resTag : String) :
    movetext ms resTag = movetextPairs ms 1 ++ resTag := by
  unfold movetext
  rw [movetextAux_eq_pairs ms ms.length 0 1 (by omega)]
  rfl

/-! ## Claims about the formatter (C1, C2, C10) -/

/-- The counterexample input for claim C1: white move, a null black
slot, then another white move with a notation. -/
def cexMovesC1 : List Ply :=
  [some ⟨some "32-28"⟩, none, some ⟨some "28x19"⟩]

/-- C1, counterexample: the claim says the first ply lacking a notation
terminates the movetext, so on `cexMovesC1` (second ply is a null slot)
nothing after move 1 would be emitted and the movetext would be
`"1. 32-28 *"`; the code skips the missing black half and still emits
move 2, producing `"1. 32-28 2. 28x19 *"`. -/
theorem movetext_claimC1_counterexample :
    movetext cexMovesC1 "*" = "1. 32-28 2. 28x19 *" ∧
    movetextClaimC1 cexMovesC1 1 ++ "*" = "1. 32-28 *" ∧
    movetext cexMovesC1 "*" ≠ movetextClaimC1 cexMovesC1 1 ++ "*" := by
  refine ⟨?_, by decide, ?_⟩
  · rw [movetext_eq_pairs]; decide
  · rw [movetext_eq_pairs]; decide

/-- C1 (amended): plies are consumed two at a time starting at move
number 1; each emitted pair contributes its move number and white
notation, the black notation only when that pair's black ply has one,
and a trailing space; emission stops at the first pair whose *white*
ply is missing or lacks a notation (a black ply lacking a notation only
omits that pair's black token and does not stop later pairs); after the
emitted pairs the Result tag value is appended as the final movetext
token.  `movetextPairs` is that rule verbatim, and the full rendered
text is the tag block, a blank line, and that movetext, trimmed. -/
theorem generatePDN_movetext_pair_rule (g : PdnInput) (today : String) :
    (generatePDN g today).text =
      (tagText (generatePDN g today).tags ++ "\n\n" ++
        (movetextPairs (g.moves.getD []) 1 ++ (generatePDN g today).tags.result)).trim := by
  have h0 : (generatePDN g today).text =
      (tagText (generatePDN g today).tags ++ "\n\n" ++
        movetext (g.moves.getD []) (generatePDN g today).tags.result).trim := rfl
  rw [h0, movetext_eq_pairs]

/-- The round-trip input of claim C2. -/
def gC2 : PdnInput :=
  { white := some ⟨none, some "Ann", none, none⟩
    black := some ⟨none, some "Bo", none, none⟩
    result := some "1-0"
    variant := some "International"
    moves := some [some ⟨some "32-28"⟩, some ⟨some "19-23"⟩, some ⟨some "28x19"⟩] }

/-- C2: on ruleset International with white "Ann", black "Bo", result
"1-0" and moves 32-28, 19-23, 28x19, the formatter produces GameType
"20", White "Ann", Black "Bo", and the movetext
`1. 32-28 19-23 2. 28x19 1-0`. -/
theorem generatePDN_roundtrip_c2 (today : String) :
    (generatePDN gC2 today).tags.gameType = "20" ∧
    (generatePDN gC2 today).tags.white = "Ann" ∧
    (generatePDN gC2 today).tags.black = "Bo" ∧
    movetext (gC2.moves.getD []) (generatePDN gC2 today).tags.result =
      "1. 32-28 19-23 2. 28x19 1-0" := by
  refine ⟨rfl, rfl, rfl, ?_⟩
  have hres : (generatePDN gC2 today).tags.result = "1-0" := rfl
  rw [hres, movetext_eq_pairs]
  decide

/-- C10: the formatter is total on its input — for every game object,
including one with absent white/black/result/variant/moves fields and a
moves array holding null slots or objects without a notation string, it
returns a tags/text pair, substituting the documented defaults for the
absent fields. -/
theorem generatePDN_total_defaults (today : String) (g : PdnInput) :
    (g.white = none → (generatePDN g today).tags.white = "White") ∧
    (g.black = none → (generatePDN g today).tags.black = "Black") ∧
    (g.result = none → (generatePDN g today).tags.result = "*") ∧
    (g.variant = none → (generatePDN g today).tags.gameType = "20") ∧
    (generatePDN g today).text =
      (tagText (generatePDN g today).tags ++ "\n\n" ++
        movetext (g.moves.getD []) (generatePDN g today).tags.result).trim := by
  refine ⟨?_, ?_, ?_, ?_, rfl⟩
  · intro h; simp [generatePDN, h, jsOr]
  · intro h; simp [generatePDN, h, jsOr]
  · intro h; simp [generatePDN, h, jsOr]
  · intro h; simp [generatePDN, h, jsOr, gameTypeForVariant]

/-- A fully degenerate formatter input: every field absent, and a moves
list (used in the witness below with `gC10` tweaked) of bad slots. -/
def gC10 : PdnInput :=
  { white := none, black := none, result := none, variant := none
    moves := some [none, some ⟨none⟩, some ⟨some ""⟩] }

/-- Witness for C10 at a concrete degenerate input. -/
theorem generatePDN_total_defaults_witness :
    (generatePDN gC10 "2024.01.01").tags.white = "White" ∧
    (generatePDN gC10 "2024.01.01").tags.black = "Black" ∧
    (generatePDN gC10 "2024.01.01").tags.result = "*" ∧
    (generatePDN gC10 "2024.01.01").tags.gameType = "20" := by
  have h := generatePDN_total_defaults "2024.01.01" gC10
  exact ⟨h.1 rfl, h.2.1 rfl, h.2.2.1 rfl, h.2.2.2.1 rfl⟩

/-! ## MongoDB update documents (the fragment these handlers use)

MongoDB statically validates an update document: if the path of one
update operator is equal to, or a leading segment of, the path of
another, the whole `updateOne` call is rejected with server error 40
("Updating the path 'a.b' would create a conflict at 'a'"), whether or
not the filter matches an existing document.  The player update below
is the one call site whose document can contain such a pair. -/

/-- A dotted field path of an update operator. -/
abbrev FieldPath := List String

/-- `p` is a leading segment of `q`. -/
def startsWithPath : FieldPath → FieldPath → Bool
  | [], _ => true
  | _, [] => false
  | a :: p, b :: q => a == b && startsWithPath p q

/-- Two operator paths conflict when either is a leading segment of the
other. -/
def pathsConflict (p q : FieldPath) : Bool :=
  startsWithPath p q || startsWithPath q p

/-- Some path of `ps` conflicts with some path of `qs`. -/
def anyPathConflict (ps qs : List FieldPath) : Bool :=
  ps.any fun p => qs.any fun q => pathsConflict p q

/-- An update document made of `$set`, `$inc` and `$setOnInsert` parts
is rejected when paths of distinct operators conflict. -/
def updateDocRejected (setPs incPs soiPs : List FieldPath) : Bool :=
  anyPathConflict setPs incPs || anyPathConflict setPs soiPs || anyPathConflict incPs soiPs

/-- Replace the first list entry matching `p` by its image under `f`
(MongoDB `updateOne` touches a single matching document). -/
def replaceFirst {α : Type} (p : α → Bool) (f : α → α) : List α → List α
  | [] => []
  | x :: xs => if p x then f x :: xs else x :: replaceFirst p f xs

/-! ## The events / players store (POST /roblox/events) -/

/-- Opaque JSON object payload (`data`, `stats`, `ratings`). -/
abbrev Payload := List (String × String)

/-- One document of the `events` collection (index.js lines 135-146). -/
structure EventRecord where
  eventId : String
  userId : Int
  type : String
  ts : Int
  gameId : Option String
  correlationId : Option String
  sessionId : Option String
  schemaVersion : Int
  data : Payload
  receivedAt : Int
deriving DecidableEq, Repr

/-- One document of the `players` collection: the fields written by the
events handler (index.js lines 160-172), with the `totals` subdocument
flattened into its two counters. -/
structure Player where
  userId : Int
  totalsGames : Int
  totalsLessonSteps : Int
  lastSeenAt : Int
  lastEventType : String
  lastEventAt : Int
  createdAt : Int
deriving DecidableEq, Repr

/-- The request body of POST /roblox/events (index.js lines 118-128);
each field is absent or supplied. -/
structure EventsBody where
  eventId : Option String
  userId : Option Int
  type : Option String
  ts : Option Int
  data : Option Payload
  gameId : Option String
  correlationId : Option String
  sessionId : Option String
  schemaVersion : Option Int
deriving DecidableEq, Repr

/-- index.js lines 95-98 (`toInt`): `Number(n)` when finite, the
fallback otherwise; an absent value gives NaN, hence the fallback. -/
def toInt (o : Option Int) (fallback : Int) : Int :=
  match o with
  | some n => n
  | none => fallback

/-- JS falsiness of an optional string (absent or empty). -/
def strFalsy (o : Option String) : Bool :=
  match o with
  | none => true
  | some s => s == ""

/-- JS falsiness of an optional number (absent or zero). -/
def numFalsy (o : Option Int) : Bool :=
  match o with
  | none => true
  | some n => n == 0

/-- The handler's required-field check (index.js line 130):
`!eventId || userId === undefined || !type || !ts`. -/
def eventsMissingFields (b : EventsBody) : Bool :=
  strFalsy b.eventId || b.userId.isNone || strFalsy b.type || numFalsy b.ts

/-- `$set` paths of the player update (index.js lines 163-167). -/
def playersSetPaths : List FieldPath :=
  [["lastSeenAt"], ["lastEventType"], ["lastEventAt"]]

/-- `$inc` paths selected from the event type (index.js lines 155-157);
empty when the type selects no counter, in which case no `$inc`
operator is sent (line 168). -/
def playersIncPaths (etype : String) : List FieldPath :=
  (if etype == "match_end" then [["totals", "games"]] else []) ++
  (if etype == "lesson_step_completed" then [["totals", "lessonSteps"]] else [])

/-- `$setOnInsert` paths of the player update (index.js line 169). -/
def playersSoiPaths : List FieldPath :=
  [["createdAt"], ["totals"]]

/-- `Players.updateOne({userId}, {...}, {upsert:true})` (index.js lines
160-172).  `fault` models an external store failure of this call; the
document-level path-conflict rejection is computed from the operator
paths the handler actually sends. -/
def playersUpdateOne (players : List Player) (uid : Int) (etype : String)
    (ets now : Int) (fault : Bool) : Except String (List Player) :=
  if fault then .error "store failure"
  else if updateDocRejected playersSetPaths (playersIncPaths etype) playersSoiPaths then
    .error "ConflictingUpdateOperators"
  else
    let incG : Int := if etype == "match_end" then 1 else 0
    let incL : Int := if etype == "lesson_step_completed" then 1 else 0
    match players.find? (fun p => p.userId == uid) with
    | some _ =>
      .ok (replaceFirst (fun p => p.userId == uid)
        (fun p =>
          { p with
            lastSeenAt := ets * 1000
            lastEventType := etype
            lastEventAt := now
            totalsGames := p.totalsGames + incG
            totalsLessonSteps := p.totalsLessonSteps + incL }) players)
    | none =>
      .ok (players ++
        [{ userId := uid
           totalsGames := 0 + incG
           totalsLessonSteps := 0 + incL
           lastSeenAt := ets * 1000
           lastEventType := etype
           lastEventAt := now
           createdAt := now }])

/-- The handler's response: HTTP 400 with an error code, HTTP 500 with
an error code, or `{ok:true}` carrying the `deduped` flag. -/
inductive EvResponse where
  | badRequest : String → EvResponse
  | dbError : String → EvResponse
  | accepted : Bool → EvResponse
deriving DecidableEq, Repr

/-- POST /roblox/events (index.js lines 117-179).  `insertFault` models
a non-duplicate-key failure of `Events.insertOne`; the duplicate-key
case (error code 11000, produced by the unique index on `eventId`) is
an existing event with the same `eventId` and returns the deduped
success without touching the player aggregate.  A failure of the player
update is caught and logged, leaving the players collection unchanged
and the response successful. -/
def recordEvent (events : List EventRecord) (players : List Player)
    (b : EventsBody) (now : Int) (insertFault playersFault : Bool) :
    EvResponse × List EventRecord × List Player :=
  if eventsMissingFields b then (.badRequest "missing_fields", events, players)
  else
    let eid := b.eventId.getD ""
    if insertFault then (.dbError "db_error", events, players)
    else if events.any fun e => e.eventId == eid then (.accepted true, events, players)
    else
      let er : EventRecord :=
        { eventId := eid
          userId := toInt b.userId 0
          type := b.type.getD ""
          ts := toInt b.ts 0
          gameId := b.gameId
          correlationId := b.correlationId
          sessionId := b.sessionId
          schemaVersion := toInt b.schemaVersion 1
          data := b.data.getD []
          receivedAt := now }
      let events2 := events ++ [er]
      let players2 :=
        match playersUpdateOne players (toInt b.userId 0) (b.type.getD "")
            (toInt b.ts 0) now playersFault with
        | .ok ps => ps
        | .error _ => players
      (.accepted false, events2, players2)

/-! ## Claims C3, C4, C5, C6 about POST /roblox/events -/

/-- A valid request body used by the C3 witness. -/
def bodyC3 : EventsBody :=
  { eventId := some "e1", userId := some 7, type := some "match_end", ts := some 5,
    data := none, gameId := none, correlationId := none, sessionId := none,
    schemaVersion := none }

/-- C3: for a valid body, a first submission succeeds, resubmitting the
same `eventId` returns success with `deduped = true`, exactly one event
with that `eventId` exists afterwards, and a non-duplicate insert
failure returns the db_error failure with nothing recorded. -/
theorem recordEvent_dedup_c3 (events : List EventRecord) (players : List Player)
    (b : EventsBody) (now1 now2 : Int) (pf1 pf2 : Bool)
    (hvalid : eventsMissingFields b = false)
    (hfresh : events.any (fun e => e.eventId == b.eventId.getD "") = false) :
    (recordEvent events players b now1 false pf1).1 = .accepted false ∧
    (recordEvent (recordEvent events players b now1 false pf1).2.1
      (recordEvent events players b now1 false pf1).2.2 b now2 false pf2).1 = .accepted true ∧
    ((recordEvent (recordEvent events players b now1 false pf1).2.1
      (recordEvent events players b now1 false pf1).2.2 b now2 false pf2).2.1.filter
      (fun e => e.eventId == b.eventId.getD "")).length = 1 ∧
    recordEvent events players b now1 true pf1 = (.dbError "db_error", events, players) := by
  have hnil : events.filter (fun e => e.eventId == b.eventId.getD "") = [] := by
    rw [List.filter_eq_nil_iff]
    intro a ha
    exact List.any_eq_false.mp hfresh a ha
  refine ⟨?_, ?_, ?_, ?_⟩ <;> simp [recordEvent, hvalid, hfresh, hnil]

/-- Witness for C3 at concrete inputs. -/
theorem recordEvent_dedup_c3_witness :
    eventsMissingFields bodyC3 = false ∧
    ([] : List EventRecord).any (fun e => e.eventId == bodyC3.eventId.getD "") = false ∧
    (recordEvent [] [] bodyC3 1 false false).1 = .accepted false ∧
    (recordEvent (recordEvent [] [] bodyC3 1 false false).2.1
      (recordEvent [] [] bodyC3 1 false false).2.2 bodyC3 2 false false).1 = .accepted true ∧
    ((recordEvent (recordEvent [] [] bodyC3 1 false false).2.1
      (recordEvent [] [] bodyC3 1 false false).2.2 bodyC3 2 false false).2.1.filter
      (fun e => e.eventId == bodyC3.eventId.getD "")).length = 1 := by
  have h := recordEvent_dedup_c3 [] [] bodyC3 1 2 false false (by decide) (by decide)
  exact ⟨by decide, by decide, h.1, h.2.1, h.2.2.1⟩

/-- The counterexample body for claim C4: all four required fields are
present, with `userId = 0` and `ts = 0`. -/
def cexBodyC4 : EventsBody :=
  { eventId := some "e1", userId := some 0, type := some "match_end", ts := some 0,
    data := none, gameId := none, correlationId := none, sessionId := none,
    schemaVersion := none }

/-- C4, counterexample: all four required fields are present (userId 0,
ts 0), yet the handler's truthiness check `!ts` treats `ts = 0` as
missing and returns the 400 missing_fields response. -/
theorem recordEvent_ts_zero_counterexample :
    cexBodyC4.eventId.isSome = true ∧ cexBodyC4.userId.isSome = true ∧
    cexBodyC4.type.isSome = true ∧ cexBodyC4.ts.isSome = true ∧
    recordEvent [] [] cexBodyC4 0 false false = (.badRequest "missing_fields", [], []) := by
  refine ⟨rfl, rfl, rfl, rfl, rfl⟩

/-- C4 (amended): a request missing any of eventId, userId, type, ts —
or carrying an empty eventId/type or a zero ts, which the handler's JS
truthiness check treats the same as missing — fails with the 400
missing_fields response before any store access (the stores are
untouched); conversely every request whose four required fields are
present with nonempty eventId and type and nonzero ts (a userId of 0 is
accepted) passes this validation and never yields a 400. -/
theorem recordEvent_validation_c4 (events : List EventRecord) (players : List Player)
    (b : EventsBody) (now : Int) (f1 f2 : Bool) :
    (eventsMissingFields b = true →
      recordEvent events players b now f1 f2 = (.badRequest "missing_fields", events, players)) ∧
    (eventsMissingFields b = false →
      (recordEvent events players b now f1 f2).1 ≠ EvResponse.badRequest "missing_fields") := by
  constructor
  · intro h
    simp [recordEvent, h]
  · intro h
    cases f1 with
    | true => simp [recordEvent, h]
    | false =>
      by_cases hd : events.any (fun e => e.eventId == b.eventId.getD "") = true
      · simp [recordEvent, h, hd]
      · have hd2 : events.any (fun e => e.eventId == b.eventId.getD "") = false := by
          simpa using hd
        simp [recordEvent, h, hd2]

/-- A body with `userId = 0` and a nonzero ts, passing validation. -/
def okBodyC4 : EventsBody :=
  { eventId := some "e4", userId := some 0, type := some "t", ts := some 9,
    data := none, gameId := none, correlationId := none, sessionId := none,
    schemaVersion := none }

/-- Witness for C4 at concrete inputs: a zero-ts body is rejected with
the stores untouched, and a `userId = 0` body with nonzero ts passes. -/
theorem recordEvent_validation_c4_witness :
    (eventsMissingFields cexBodyC4 = true ∧
      recordEvent [] [] cexBodyC4 0 false false = (.badRequest "missing_fields", [], [])) ∧
    (eventsMissingFields okBodyC4 = false ∧
      (recordEvent [] [] okBodyC4 3 false false).1 ≠ EvResponse.badRequest "missing_fields") := by
  refine ⟨⟨by decide, (recordEvent_validation_c4 [] [] cexBodyC4 0 false false).1 (by decide)⟩,
    ⟨by decide, (recordEvent_validation_c4 [] [] okBodyC4 3 false false).2 (by decide)⟩⟩

/-- A valid request body used by the C5 witness. -/
def bodyC5 : EventsBody :=
  { eventId := some "e5", userId := some 3, type := some "lesson_step_completed", ts := some 4,
    data := none, gameId := none, correlationId := none, sessionId := none,
    schemaVersion := none }

/-- C5: for a valid, non-duplicate event, whether or not the player
aggregate update fails, the response is still the non-deduped success
and the event is durably appended to the events collection. -/
theorem recordEvent_playersFault_c5 (events : List EventRecord) (players : List Player)
    (b : EventsBody) (now : Int) (pf : Bool)
    (hvalid : eventsMissingFields b = false)
    (hfresh : events.any (fun e => e.eventId == b.eventId.getD "") = false) :
    (recordEvent events players b now false pf).1 = .accepted false ∧
    (recordEvent events players b now false pf).2.1 = events ++
      [{ eventId := b.eventId.getD "", userId := toInt b.userId 0, type := b.type.getD "",
         ts := toInt b.ts 0, gameId := b.gameId, correlationId := b.correlationId,
         sessionId := b.sessionId, schemaVersion := toInt b.schemaVersion 1,
         data := b.data.getD [], receivedAt := now }] := by
  constructor <;> simp [recordEvent, hvalid, hfresh]

/-- Witness for C5 at a concrete input with the player update failing. -/
theorem recordEvent_playersFault_c5_witness :
    eventsMissingFields bodyC5 = false ∧
    ([] : List EventRecord).any (fun e => e.eventId == bodyC5.eventId.getD "") = false ∧
    (recordEvent [] [] bodyC5 9 false true).1 = .accepted false ∧
    (recordEvent [] [] bodyC5 9 false true).2.1 =
      [{ eventId := "e5", userId := 3, type := "lesson_step_completed", ts := 4,
         gameId := none, correlationId := none, sessionId := none, schemaVersion := 1,
         data := [], receivedAt := 9 }] := by
  have h := recordEvent_playersFault_c5 [] [] bodyC5 9 true (by decide) (by decide)
  exact ⟨by decide, by decide, h.1, h.2⟩

/-- The two bodies of the C6 failing input: a counter-selecting type and
an unrelated type, same user. -/
def bodyC6games : EventsBody :=
  { eventId := some "e1", userId := some 7, type := some "match_end", ts := some 5,
    data := none, gameId := none, correlationId := none, sessionId := none,
    schemaVersion := none }

def bodyC6other : EventsBody :=
  { eventId := some "e2", userId := some 7, type := some "match_start", ts := some 6,
    data := none, gameId := none, correlationId := none, sessionId := none,
    schemaVersion := none }

/-- C6 (code bug, evaluated at the failing input): a first `match_end`
event for a fresh user is accepted, but the player update document
pairs `$setOnInsert` on `totals` with `$inc` on `totals.games`, which
the store rejects as conflicting paths; the handler swallows the error,
so no Player record is created at all — `totals.games` never reaches
N = 1.  An unrelated type sends no `$inc`, so its update succeeds and
sets the last-seen fields with both counters zero. -/
theorem recordEvent_counter_conflict_c6 :
    (recordEvent [] [] bodyC6games 100 false false).1 = .accepted false ∧
    (recordEvent [] [] bodyC6games 100 false false).2.2 = [] ∧
    playersUpdateOne [] 7 "match_end" 5 100 false = .error "ConflictingUpdateOperators" ∧
    (recordEvent [] [] bodyC6other 100 false false).2.2 =
      [{ userId := 7, totalsGames := 0, totalsLessonSteps := 0, lastSeenAt := 6000,
         lastEventType := "match_start", lastEventAt := 100, createdAt := 100 }] := by
  refine ⟨rfl, rfl, rfl, rfl⟩

/-! ## The games store (upsert / finalize / export) -/

/-- One document of the `games` collection: `gameId` plus every field
written by the upsert (index.js lines 198-219) or finalize (lines
252-279) handler.  Fields only one of the two writers sets are
`Option`s, so a record created by finalize alone has no `startFen` and
a record created by upsert alone has none of the finalize fields. -/
structure Game where
  gameId : String
  createdAt : Int
  updatedAt : Int
  status : String
  mode : String
  variant : String
  rated : Bool
  timeControl : Option String
  white : Option Side
  black : Option Side
  correlationId : Option String
  startFen : Option String
  result : Option String
  endReason : Option String
  finalFen : Option String
  moves : Option (List Ply)
  stats : Option Payload
  ratings : Option Payload
  endAt : Option Int
  pdn : Option PdnOut
deriving DecidableEq, Repr

/-- JS `x || null` on an optional string: empty collapses to null. -/
def jsOrNull (o : Option String) : Option String :=
  match o with
  | some s => if s = "" then none else some s
  | none => none

/-- `Games.findOne({gameId})`. -/
def gamesFind (store : List Game) (gid : String) : Option Game :=
  store.find? fun g => g.gameId == gid

/-- `Games.updateOne({gameId}, ..., {upsert:true})`: apply the `$set`
image `f` to the matching document, or insert the document built from
the filter, `$setOnInsert` and `$set` parts.  (Both games update
documents are free of operator path conflicts — proved below — so no
rejection branch arises here.) -/
def gamesUpdateOne (store : List Game) (gid : String) (f : Game → Game)
    (inserted : Game) : List Game :=
  match gamesFind store gid with
  | some _ => replaceFirst (fun g => g.gameId == gid) f store
  | none => store ++ [inserted]

/-- The request body of POST /roblox/games/upsert (lines 192-196). -/
structure UpsertBody where
  gameId : Option String
  variant : Option String
  startFen : Option String
  white : Option Side
  black : Option Side
  mode : Option String
  rated : Option Bool
  timeControl : Option String
  correlationId : Option String
deriving DecidableEq, Repr

/-- The request body of POST /roblox/games/finalize (lines 234-237). -/
structure FinalizeBody where
  gameId : Option String
  result : Option String
  finalFen : Option String
  moves : Option (List Ply)
  variant : Option String
  endReason : Option String
  stats : Option Payload
  ratings : Option Payload
  white : Option Side
  black : Option Side
  timeControl : Option String
  rated : Option Bool
  mode : Option String
  correlationId : Option String
deriving DecidableEq, Repr

/-- Line 194: `!g.gameId || !g.variant || !g.white || !g.black || !g.startFen`. -/
def upsertMissingFields (b : UpsertBody) : Bool :=
  strFalsy b.gameId || strFalsy b.variant || b.white.isNone || b.black.isNone ||
    strFalsy b.startFen

/-- Line 236: `!g.gameId || !g.result || !g.finalFen || !Array.isArray(g.moves)`. -/
def finalizeMissingFields (b : FinalizeBody) : Bool :=
  strFalsy b.gameId || strFalsy b.result || strFalsy b.finalFen || b.moves.isNone

/-- The upsert handler's `$set` part (lines 206-216). -/
def upsertSetFields (b : UpsertBody) (now : Int) (g : Game) : Game :=
  { g with
    updatedAt := now
    mode := jsOr b.mode "pvp"
    variant := b.variant.getD ""
    rated := b.rated.getD false
    timeControl := jsOrNull b.timeControl
    white := b.white
    black := b.black
    correlationId := jsOrNull b.correlationId
    startFen := b.startFen }

/-- The document inserted by an upsert on a fresh `gameId`: the filter
equality, the `$setOnInsert` part (gameId, createdAt, status running,
lines 201-205) and the `$set` part; finalize-only fields absent. -/
def upsertInserted (b : UpsertBody) (now : Int) : Game :=
  { gameId := b.gameId.getD ""
    createdAt := now
    updatedAt := now
    status := "running"
    mode := jsOr b.mode "pvp"
    variant := b.variant.getD ""
    rated := b.rated.getD false
    timeControl := jsOrNull b.timeControl
    white := b.white
    black := b.black
    correlationId := jsOrNull b.correlationId
    startFen := b.startFen
    result := none
    endReason := none
    finalFen := none
    moves := none
    stats := none
    ratings := none
    endAt := none
    pdn := none }

/-- The games handlers respond 400 or `{ok:true}`. -/
inductive StoreResponse where
  | badRequest : String → StoreResponse
  | okTrue : StoreResponse
deriving DecidableEq, Repr

/-- POST /roblox/games/upsert (index.js lines 192-222). -/
def upsertGame (store : List Game) (b : UpsertBody) (now : Int) :
    StoreResponse × List Game :=
  if upsertMissingFields b then (.badRequest "missing_fields", store)
  else
    (.okTrue,
      gamesUpdateOne store (b.gameId.getD "") (upsertSetFields b now) (upsertInserted b now))

/-- The argument object the finalize handler passes to `generatePDN`
(lines 241-250): variant defaulted to International, white/black
defaulted to display-only objects when absent. -/
def finalizePdnInput (b : FinalizeBody) : PdnInput :=
  { white :=
      match b.white with
      | some w => some w
      | none => some { userId := none, display := some "White", isAI := none, aiLevel := none }
    black :=
      match b.black with
      | some w => some w
      | none => some { userId := none, display := some "Black", isAI := none, aiLevel := none }
    result := b.result
    variant := some (jsOr b.variant "International")
    moves := b.moves }

/-- The finalize handler's `$set` part (lines 256-276). -/
def finalizeSetFields (b : FinalizeBody) (now : Int) (pdnOut : PdnOut) (g : Game) : Game :=
  { g with
    updatedAt := now
    endAt := some now
    status := "finished"
    mode := jsOr b.mode "pvp"
    variant := jsOr b.variant "International"
    rated := b.rated.getD false
    timeControl := jsOrNull b.timeControl
    white := b.white
    black := b.black
    correlationId := jsOrNull b.correlationId
    result := b.result
    endReason := jsOrNull b.endReason
    finalFen := b.finalFen
    moves := b.moves
    stats := b.stats
    ratings := b.ratings
    pdn := some pdnOut }

/-- The document inserted by a finalize on a fresh `gameId`: the filter
equality, `$setOnInsert` (createdAt, line 255) and the `$set` part;
`startFen` is never set by finalize. -/
def finalizeInserted (b : FinalizeBody) (now : Int) (pdnOut : PdnOut) : Game :=
  { gameId := b.gameId.getD ""
    createdAt := now
    updatedAt := now
    status := "finished"
    mode := jsOr b.mode "pvp"
    variant := jsOr b.variant "International"
    rated := b.rated.getD false
    timeControl := jsOrNull b.timeControl
    white := b.white
    black := b.black
    correlationId := jsOrNull b.correlationId
    startFen := none
    result := b.result
    endReason := jsOrNull b.endReason
    finalFen := b.finalFen
    moves := b.moves
    stats := b.stats
    ratings := b.ratings
    endAt := some now
    pdn := some pdnOut }

/-- POST /roblox/games/finalize (index.js lines 234-282). -/
def finalizeGame (store : List Game) (b : FinalizeBody) (now : Int) (today : String) :
    StoreResponse × List Game :=
  if finalizeMissingFields b then (.badRequest "missing_fields", store)
  else
    let pdnOut := generatePDN (finalizePdnInput b) today
    (.okTrue,
      gamesUpdateOne store (b.gameId.getD "") (finalizeSetFields b now pdnOut)
        (finalizeInserted b now pdnOut))

/-- Operator paths of the upsert update document. -/
def upsertSetPaths : List FieldPath :=
  [["updatedAt"], ["mode"], ["variant"], ["rated"], ["timeControl"], ["white"],
   ["black"], ["correlationId"], ["startFen"]]

def upsertSoiPaths : List FieldPath :=
  [["gameId"], ["createdAt"], ["status"]]

/-- Operator paths of the finalize update document. -/
def finalizeSetPaths : List FieldPath :=
  [["updatedAt"], ["endAt"], ["status"], ["mode"], ["variant"], ["rated"],
   ["timeControl"], ["white"], ["black"], ["correlationId"], ["result"],
   ["endReason"], ["finalFen"], ["moves"], ["stats"], ["ratings"], ["pdn"]]

def finalizeSoiPaths : List FieldPath :=
  [["createdAt"]]

/-- Neither games update document triggers the store's path-conflict
rejection, so `gamesUpdateOne` needs no error branch. -/
theorem games_update_docs_not_rejected :
    updateDocRejected upsertSetPaths [] upsertSoiPaths = false ∧
    updateDocRejected finalizeSetPaths [] finalizeSoiPaths = false := by
  refine ⟨rfl, rfl⟩

/-- The GET /games/:gameId/pdn response. -/
inductive ExportResult where
  | notFound : ExportResult
  | plainText : String → ExportResult
deriving DecidableEq, Repr

/-- The stored record viewed as a `generatePDN` argument (line 294
passes the whole document). -/
def pdnInputOfGame (g : Game) : PdnInput :=
  { white := g.white, black := g.black, result := g.result,
    variant := some g.variant, moves := g.moves }

/-- GET /games/:gameId/pdn (index.js lines 288-296): 404 when unknown,
the cached text when `g.pdn?.text` is truthy, a freshly generated text
otherwise; the handler performs no store write, so the store component
is returned unchanged. -/
def exportPDN (store : List Game) (gid : String) (today : String) :
    ExportResult × List Game :=
  match gamesFind store gid with
  | none => (.notFound, store)
  | some g =>
    match g.pdn with
    | some p =>
      if p.text == "" then (.plainText (generatePDN (pdnInputOfGame g) today).text, store)
      else (.plainText p.text, store)
    | none => (.plainText (generatePDN (pdnInputOfGame g) today).text, store)

/-! ## Helper lemmas about the collection primitives -/

/-- `find?` after replacing the first match, when the update preserves
the matched predicate. -/
theorem find?_replaceFirst {α : Type} (p : α → Bool) (f : α → α) :
    ∀ (l : List α) (x : α), l.find? p = some x → p (f x) = true →
      (replaceFirst p f l).find? p = some (f x) := by
  intro l
  induction l with
  | nil =>
    intro x h _
    simp [List.find?] at h
  | cons a as ih =>
    intro x h hp
    by_cases ha : p a = true
    · rw [List.find?_cons_of_pos as ha] at h
      cases h
      unfold replaceFirst
      rw [if_pos ha]
      exact List.find?_cons_of_pos as hp
    · have ha2 : ¬ p a := by simpa using ha
      rw [List.find?_cons_of_neg as ha2] at h
      unfold replaceFirst
      rw [if_neg ha]
      rw [List.find?_cons_of_neg _ ha2]
      exact ih x h hp

/-- `find?` over an appended singleton when the prefix has no match. -/
theorem find?_append_singleton {α : Type} (p : α → Bool) (l : List α) (x : α)
    (h : l.find? p = none) (hx : p x = true) : (l ++ [x]).find? p = some x := by
  rw [List.find?_append, h]
  simp [List.find?_cons_of_pos _ hx]

/-! ## Claims C7, C8 about the games upsert/finalize handlers -/

/-- C7: finalizing the same fresh `gameId` twice overwrites — after the
second call the single Game record carries the second call's finalize
fields (result, endReason, finalFen, moves, stats, ratings, endAt,
cached pdn), the status is finished after both calls, and the first
call's creation timestamp is preserved. -/
theorem finalizeGame_twice_c7 (store : List Game) (b1 b2 : FinalizeBody)
    (t1 t2 : Int) (d1 d2 : String) (gid : String)
    (hv1 : finalizeMissingFields b1 = false)
    (hv2 : finalizeMissingFields b2 = false)
    (hg1 : b1.gameId = some gid)
    (hg2 : b2.gameId = some gid)
    (hfresh : gamesFind store gid = none) :
    (gamesFind (finalizeGame store b1 t1 d1).2 gid).map Game.status = some "finished" ∧
    gamesFind (finalizeGame (finalizeGame store b1 t1 d1).2 b2 t2 d2).2 gid =
      some (finalizeSetFields b2 t2 (generatePDN (finalizePdnInput b2) d2)
        (finalizeInserted b1 t1 (generatePDN (finalizePdnInput b1) d1))) ∧
    (finalizeSetFields b2 t2 (generatePDN (finalizePdnInput b2) d2)
      (finalizeInserted b1 t1 (generatePDN (finalizePdnInput b1) d1))).status = "finished" ∧
    (finalizeSetFields b2 t2 (generatePDN (finalizePdnInput b2) d2)
      (finalizeInserted b1 t1 (generatePDN (finalizePdnInput b1) d1))).createdAt = t1 ∧
    (finalizeSetFields b2 t2 (generatePDN (finalizePdnInput b2) d2)
      (finalizeInserted b1 t1 (generatePDN (finalizePdnInput b1) d1))).result = b2.result ∧
    (finalizeSetFields b2 t2 (generatePDN (finalizePdnInput b2) d2)
      (finalizeInserted b1 t1 (generatePDN (finalizePdnInput b1) d1))).endReason =
        jsOrNull b2.endReason ∧
    (finalizeSetFields b2 t2 (generatePDN (finalizePdnInput b2) d2)
      (finalizeInserted b1 t1 (generatePDN (finalizePdnInput b1) d1))).finalFen = b2.finalFen ∧
    (finalizeSetFields b2 t2 (generatePDN (finalizePdnInput b2) d2)
      (finalizeInserted b1 t1 (generatePDN (finalizePdnInput b1) d1))).moves = b2.moves ∧
    (finalizeSetFields b2 t2 (generatePDN (finalizePdnInput b2) d2)
      (finalizeInserted b1 t1 (generatePDN (finalizePdnInput b1) d1))).stats = b2.stats ∧
    (finalizeSetFields b2 t2 (generatePDN (finalizePdnInput b2) d2)
      (finalizeInserted b1 t1 (generatePDN (finalizePdnInput b1) d1))).ratings = b2.ratings ∧
    (finalizeSetFields b2 t2 (generatePDN (finalizePdnInput b2) d2)
      (finalizeInserted b1 t1 (generatePDN (finalizePdnInput b1) d1))).endAt = some t2 ∧
    (finalizeSetFields b2 t2 (generatePDN (finalizePdnInput b2) d2)
      (finalizeInserted b1 t1 (generatePDN (finalizePdnInput b1) d1))).pdn =
        some (generatePDN (finalizePdnInput b2) d2) := by
  have hgid1 : b1.gameId.getD "" = gid := by rw [hg1]; rfl
  have hgid2 : b2.gameId.getD "" = gid := by rw [hg2]; rfl
  have hs1 : (finalizeGame store b1 t1 d1).2 =
      store ++ [finalizeInserted b1 t1 (generatePDN (finalizePdnInput b1) d1)] := by
    simp [finalizeGame, hv1, gamesUpdateOne, hgid1, hfresh]
  have hpred : ((finalizeInserted b1 t1 (generatePDN (finalizePdnInput b1) d1)).gameId
      == gid) = true := by
    simp [finalizeInserted, hgid1]
  have hfound : gamesFind
      (store ++ [finalizeInserted b1 t1 (generatePDN (finalizePdnInput b1) d1)]) gid =
      some (finalizeInserted b1 t1 (generatePDN (finalizePdnInput b1) d1)) := by
    unfold gamesFind at hfresh ⊢
    exact find?_append_singleton _ store _ hfresh hpred
  have hkeep : ((finalizeSetFields b2 t2 (generatePDN (finalizePdnInput b2) d2)
      (finalizeInserted b1 t1 (generatePDN (finalizePdnInput b1) d1))).gameId == gid) = true := by
    simp [finalizeSetFields, finalizeInserted, hgid1]
  have hs2 : (finalizeGame (finalizeGame store b1 t1 d1).2 b2 t2 d2).2 =
      replaceFirst (fun g => g.gameId == gid)
        (finalizeSetFields b2 t2 (generatePDN (finalizePdnInput b2) d2))
        (store ++ [finalizeInserted b1 t1 (generatePDN (finalizePdnInput b1) d1)]) := by
    rw [hs1]
    simp [finalizeGame, hv2, gamesUpdateOne, hgid2, hfound]
  refine ⟨?_, ?_, rfl, rfl, rfl, rfl, rfl, rfl, rfl, rfl, rfl, rfl⟩
  · rw [hs1, hfound]
    rfl
  · rw [hs2]
    unfold gamesFind at hfound ⊢
    exact find?_replaceFirst _ _ _ _ hfound hkeep

/-- First finalize body of the C7 witness. -/
def bodyC7a : FinalizeBody :=
  { gameId := some "g7", result := some "1-0", finalFen := some "FEN1",
    moves := some [some ⟨some "32-28"⟩], variant := none, endReason := none,
    stats := none, ratings := none, white := none, black := none,
    timeControl := none, rated := none, mode := none, correlationId := none }

/-- Second finalize body of the C7 witness: different result, moves,
final position and end reason. -/
def bodyC7b : FinalizeBody :=
  { gameId := some "g7", result := some "0-1", finalFen := some "FEN2",
    moves := some [some ⟨some "31-27"⟩, some ⟨some "19-23"⟩], variant := none,
    endReason := some "resign", stats := none, ratings := none, white := none,
    black := none, timeControl := none, rated := none, mode := none,
    correlationId := none }

/-- Witness for C7 at concrete inputs. -/
theorem finalizeGame_twice_c7_witness :
    finalizeMissingFields bodyC7a = false ∧
    finalizeMissingFields bodyC7b = false ∧
    gamesFind ([] : List Game) "g7" = none ∧
    (gamesFind (finalizeGame [] bodyC7a 10 "2024.01.01").2 "g7").map Game.status =
      some "finished" ∧
    gamesFind (finalizeGame (finalizeGame [] bodyC7a 10 "2024.01.01").2
        bodyC7b 20 "2024.01.02").2 "g7" =
      some (finalizeSetFields bodyC7b 20 (generatePDN (finalizePdnInput bodyC7b) "2024.01.02")
        (finalizeInserted bodyC7a 10 (generatePDN (finalizePdnInput bodyC7a) "2024.01.01"))) ∧
    (finalizeSetFields bodyC7b 20 (generatePDN (finalizePdnInput bodyC7b) "2024.01.02")
      (finalizeInserted bodyC7a 10
        (generatePDN (finalizePdnInput bodyC7a) "2024.01.01"))).createdAt = 10 ∧
    (finalizeSetFields bodyC7b 20 (generatePDN (finalizePdnInput bodyC7b) "2024.01.02")
      (finalizeInserted bodyC7a 10
        (generatePDN (finalizePdnInput bodyC7a) "2024.01.01"))).result = bodyC7b.result := by
  have h := finalizeGame_twice_c7 [] bodyC7a bodyC7b 10 20 "2024.01.01" "2024.01.02" "g7"
    (by decide) (by decide) rfl rfl rfl
  exact ⟨by decide, by decide, rfl, h.1, h.2.1, h.2.2.2.1, h.2.2.2.2.1⟩

/-- C8: for an existing record, the games upsert updates only the header
fields and `updatedAt`, leaving status, createdAt and every
finalize-only field at their prior values; on a fresh `gameId` it
creates the record with status running and a fresh creation
timestamp. -/
theorem upsertGame_header_c8 (store : List Game) (b : UpsertBody) (now : Int) (gid : String)
    (hv : upsertMissingFields b = false)
    (hg : b.gameId = some gid) :
    (∀ g0, gamesFind store gid = some g0 →
      gamesFind (upsertGame store b now).2 gid = some (upsertSetFields b now g0) ∧
      (upsertSetFields b now g0).status = g0.status ∧
      (upsertSetFields b now g0).createdAt = g0.createdAt ∧
      (upsertSetFields b now g0).result = g0.result ∧
      (upsertSetFields b now g0).endReason = g0.endReason ∧
      (upsertSetFields b now g0).finalFen = g0.finalFen ∧
      (upsertSetFields b now g0).moves = g0.moves ∧
      (upsertSetFields b now g0).stats = g0.stats ∧
      (upsertSetFields b now g0).ratings = g0.ratings ∧
      (upsertSetFields b now g0).endAt = g0.endAt ∧
      (upsertSetFields b now g0).pdn = g0.pdn ∧
      (upsertSetFields b now g0).updatedAt = now ∧
      (upsertSetFields b now g0).variant = b.variant.getD "" ∧
      (upsertSetFields b now g0).white = b.white ∧
      (upsertSetFields b now g0).black = b.black ∧
      (upsertSetFields b now g0).startFen = b.startFen) ∧
    (gamesFind store gid = none →
      gamesFind (upsertGame store b now).2 gid = some (upsertInserted b now) ∧
      (upsertInserted b now).status = "running" ∧
      (upsertInserted b now).createdAt = now) := by
  have hgid : b.gameId.getD "" = gid := by rw [hg]; rfl
  constructor
  · intro g0 hfound
    have hg0 : (g0.gameId == gid) = true := by
      unfold gamesFind at hfound
      have h2 := List.find?_some hfound
      simpa using h2
    have hkeep : ((upsertSetFields b now g0).gameId == gid) = true := by
      simpa [upsertSetFields] using hg0
    refine ⟨?_, rfl, rfl, rfl, rfl, rfl, rfl, rfl, rfl, rfl, rfl, rfl, rfl, rfl, rfl, rfl⟩
    have hupd : (upsertGame store b now).2 =
        replaceFirst (fun g => g.gameId == gid) (upsertSetFields b now) store := by
      simp [upsertGame, hv, gamesUpdateOne, hgid, hfound]
    rw [hupd]
    unfold gamesFind at hfound ⊢
    exact find?_replaceFirst _ _ _ _ hfound hkeep
  · intro hfresh
    refine ⟨?_, rfl, rfl⟩
    have hupd : (upsertGame store b now).2 = store ++ [upsertInserted b now] := by
      simp [upsertGame, hv, gamesUpdateOne, hgid, hfresh]
    rw [hupd]
    unfold gamesFind at hfresh ⊢
    exact find?_append_singleton _ _ _ hfresh (by simp [upsertInserted, hgid])

/-- An already-finished record used by the C8 witness. -/
def gameC8 : Game :=
  { gameId := "g8", createdAt := 50, updatedAt := 51, status := "finished", mode := "pvp",
    variant := "International", rated := false, timeControl := none, white := none,
    black := none, correlationId := none, startFen := some "fen0", result := some "1-0",
    endReason := none, finalFen := some "fenF", moves := some [], stats := none,
    ratings := none, endAt := some 60, pdn := none }

/-- A valid header body used by the C8 witness. -/
def bodyC8 : UpsertBody :=
  { gameId := some "g8", variant := some "Brazilian", startFen := some "fen1",
    white := some { userId := some 1, display := some "A", isAI := none, aiLevel := none },
    black := some { userId := some 2, display := some "B", isAI := none, aiLevel := none },
    mode := none, rated := none, timeControl := none, correlationId := none }

/-- Witness for C8 at concrete inputs. -/
theorem upsertGame_header_c8_witness :
    upsertMissingFields bodyC8 = false ∧
    gamesFind [gameC8] "g8" = some gameC8 ∧
    gamesFind (upsertGame [gameC8] bodyC8 70).2 "g8" = some (upsertSetFields bodyC8 70 gameC8) ∧
    (upsertSetFields bodyC8 70 gameC8).status = gameC8.status ∧
    (upsertSetFields bodyC8 70 gameC8).createdAt = gameC8.createdAt ∧
    (upsertSetFields bodyC8 70 gameC8).pdn = gameC8.pdn ∧
    gamesFind ([] : List Game) "g8" = none ∧
    gamesFind (upsertGame [] bodyC8 70).2 "g8" = some (upsertInserted bodyC8 70) ∧
    (upsertInserted bodyC8 70).status = "running" ∧
    (upsertInserted bodyC8 70).createdAt = 70 := by
  have h := upsertGame_header_c8 [gameC8] bodyC8 70 "g8" (by decide) rfl
  have h2 := upsertGame_header_c8 [] bodyC8 70 "g8" (by decide) rfl
  obtain ⟨hfind, hS, hC, _, _, _, _, _, _, _, hP, _⟩ := h.1 gameC8 rfl
  obtain ⟨hfind2, hS2, hC2⟩ := h2.2 rfl
  exact ⟨by decide, rfl, hfind, hS, hC, hP, rfl, hfind2, hS2, hC2⟩

/-! ## Claim C9 about GET /games/:gameId/pdn -/

/-- C9: export fails with not-found when the record is absent; returns
exactly the cached text when one is held; recomputes through the
formatter when no cached pdn exists; and never modifies the store. -/
theorem exportPDN_c9 (store : List Game) (gid : String) (today : String) :
    (exportPDN store gid today).2 = store ∧
    (gamesFind store gid = none → (exportPDN store gid today).1 = .notFound) ∧
    (∀ g p, gamesFind store gid = some g → g.pdn = some p → p.text ≠ "" →
      (exportPDN store gid today).1 = .plainText p.text) ∧
    (∀ g, gamesFind store gid = some g → g.pdn = none →
      (exportPDN store gid today).1 =
        .plainText (generatePDN (pdnInputOfGame g) today).text) := by
  refine ⟨?_, ?_, ?_, ?_⟩
  · cases hf : gamesFind store gid with
    | none => simp [exportPDN, hf]
    | some g =>
      cases hp : g.pdn with
      | none => simp [exportPDN, hf, hp]
      | some p =>
        by_cases ht : (p.text == "") = true
        · simp [exportPDN, hf, hp, ht]
        · have ht2 : (p.text == "") = false := by simpa using ht
          simp [exportPDN, hf, hp, ht2]
  · intro h
    simp [exportPDN, h]
  · intro g p hf hp hne
    have ht : (p.text == "") = false := by
      simpa using hne
    simp [exportPDN, hf, hp, ht]
  · intro g hf hp
    simp [exportPDN, hf, hp]

/-- The tag block of the cached pdn used by the C9 witness. -/
def tagsC9 : Tags :=
  { event := "Kid Draughts", site := "Roblox", date := "2024.01.01", round := "?",
    white := "White", black := "Black", result := "*", gameType := "20" }

/-- A cached pdn value, for the C9 witness. -/
def pdnC9 : PdnOut :=
  { tags := tagsC9, text := "CACHED" }

def gameC9cached : Game :=
  { gameId := "gc", createdAt := 1, updatedAt := 2, status := "finished", mode := "pvp",
    variant := "International", rated := false, timeControl := none, white := none,
    black := none, correlationId := none, startFen := none, result := some "1-0",
    endReason := none, finalFen := some "F", moves := some [], stats := none,
    ratings := none, endAt := some 3, pdn := some pdnC9 }

/-- A record with no cached pdn (as if constructed directly in storage),
for the C9 witness. -/
def gameC9plain : Game :=
  { gameId := "gp", createdAt := 1, updatedAt := 2, status := "finished", mode := "pvp",
    variant := "Brazilian", rated := false, timeControl := none, white := none,
    black := none, correlationId := none, startFen := none, result := some "0-1",
    endReason := none, finalFen := some "F", moves := some [some ⟨some "1-5"⟩],
    stats := none, ratings := none, endAt := some 3, pdn := none }

/-- Witness for C9 at concrete inputs. -/
theorem exportPDN_c9_witness :
    (exportPDN [gameC9cached, gameC9plain] "gc" "2024.01.01").2 =
      [gameC9cached, gameC9plain] ∧
    (exportPDN [gameC9cached, gameC9plain] "zz" "2024.01.01").1 = .notFound ∧
    (exportPDN [gameC9cached, gameC9plain] "gc" "2024.01.01").1 = .plainText "CACHED" ∧
    (exportPDN [gameC9cached, gameC9plain] "gp" "2024.01.01").1 =
      .plainText (generatePDN (pdnInputOfGame gameC9plain) "2024.01.01").text := by
  have h1 := exportPDN_c9 [gameC9cached, gameC9plain] "gc" "2024.01.01"
  have h2 := exportPDN_c9 [gameC9cached, gameC9plain] "zz" "2024.01.01"
  have h3 := exportPDN_c9 [gameC9cached, gameC9plain] "gp" "2024.01.01"
  exact ⟨h1.1, h2.2.1 rfl, h1.2.2.1 gameC9cached pdnC9 rfl rfl (by decide),
    h3.2.2.2 gameC9plain rfl rfl⟩
